import Mathlib

/- Verification of the evtdis event-distribution library: a shallow
embedding of src/evtdis/Event.py (event schemas, event-instance
construction, priority ordering) and src/evtdis/Publisher.py (the
publish/subscribe registry), together with a small lifecycle model of the
dispatcher taken from the specification (the Dispatcher source file is not
part of the available sources).  Python values are modelled by a small
universe that is closed under everything the embedded code inspects. -/

namespace Evtdis

/-- Python runtime types that can appear as declared parameter types. -/
inductive PyType where
  | intT
  | boolT
  | strT
  | noneT
deriving DecidableEq

/-- Python runtime values of those types. -/
inductive PyVal where
  | vInt (n : Int)
  | vBool (b : Bool)
  | vStr (s : String)
  | vNone
deriving DecidableEq

/-- Python isinstance for the modelled universe.  In Python bool is a
subclass of int, so isinstance of a bool against int is true. -/
def isinstance : PyVal → PyType → Bool
  | PyVal.vInt _, PyType.intT => true
  | PyVal.vBool _, PyType.intT => true
  | PyVal.vBool _, PyType.boolT => true
  | PyVal.vStr _, PyType.strT => true
  | PyVal.vNone, PyType.noneT => true
  | _, _ => false

/-- A component of a declaration tuple: either a type object or a plain
value.  Event.py line 138 tests isinstance of the component against
type, so the embedding separates the two. -/
inductive TpOrVal where
  | tp (t : PyType)
  | vl (v : PyVal)
deriving DecidableEq

/-- One entry of the ParameterDict of Event.py: a bare type, a 2-tuple,
or any other object (Event.py lines 134 and 137 test these three shapes
with isinstance against type and tuple). -/
inductive SpecEntry where
  | ofType (t : PyType)
  | pair (f s : TpOrVal)
  | other (v : PyVal)
deriving DecidableEq

/-- The distinct error exits of Event.py, one per raise site.
schemaDeclPair is the raise at line 141 (tuple head not a type),
schemaDeclDefault at line 145 (default not of the declared type),
schemaDeclShape at line 147 (entry neither type nor tuple), missingArg
at line 155 (RuntimeError), typeMismatch at line 160 (TypeError),
unexpectedArgs at line 163 (RuntimeError), badPriority at line 185 of
EventType. -/
inductive EvtError where
  | schemaDeclPair (key : String)
  | schemaDeclDefault (key : String)
  | schemaDeclShape (key : String)
  | missingArg (key : String)
  | typeMismatch (key : String)
  | unexpectedArgs (keys : List String)
  | badPriority
deriving DecidableEq

/-- An event type as produced by EventType: its derived class name, the
class attribute priority, and the parameter dictionary (an ordered
association list, keys unique as in a Python dict). -/
structure Schema where
  name : String
  priority : Int
  params : List (String × SpecEntry)
deriving DecidableEq

/-- An event instance: the runtime class identity, the class priority
attribute, and the dict payload built by Event.some init. -/
structure EventInst where
  typeId : String
  priority : Int
  payload : List (String × PyVal)
deriving DecidableEq

/-- Association-list lookup, first match, as Python dict indexing. -/
def lookupA {α : Type} (m : List (String × α)) (k : String) : Option α :=
  match m with
  | [] => none
  | kv :: rest => if kv.1 = k then some kv.2 else lookupA rest k

/-- Association-list key deletion, as Python del d[k] (dict keys are
unique, so removing every binding of k coincides with del). -/
def eraseA {α : Type} (m : List (String × α)) (k : String) : List (String × α) :=
  match m with
  | [] => []
  | kv :: rest => if kv.1 = k then eraseA rest k else kv :: eraseA rest k

/-- Association-list value replacement at key k, order preserving, as a
Python dict item assignment on an existing key. -/
def updateA {α : Type} (m : List (String × α)) (k : String) (v : α) : List (String × α) :=
  match m with
  | [] => []
  | kv :: rest => if kv.1 = k then (k, v) :: updateA rest k v else kv :: updateA rest k v

/-- Event.py lines 132-147: extract the parameter type and the default
sentinel from one declaration entry.  paramDefault starts as Python None
and is only overwritten by a validated tuple default, so the extracted
default slot is vNone exactly when no (valid) default was assigned; a
tuple whose second component is itself a type object fails the
isinstance check of line 142 and raises at line 145. -/
def extractSpec (key : String) (entry : SpecEntry) : Except EvtError (PyType × PyVal) :=
  match entry with
  | SpecEntry.ofType t => Except.ok (t, PyVal.vNone)
  | SpecEntry.pair f s =>
      match f with
      | TpOrVal.tp t =>
          match s with
          | TpOrVal.vl v =>
              if isinstance v t then Except.ok (t, v)
              else Except.error (EvtError.schemaDeclDefault key)
          | TpOrVal.tp _ => Except.error (EvtError.schemaDeclDefault key)
      | TpOrVal.vl _ => Except.error (EvtError.schemaDeclPair key)
  | SpecEntry.other _ => Except.error (EvtError.schemaDeclShape key)

/-- Event.py lines 126-163: the loop of Event.some init over the declared
parameters in schema order, threading the working copy of the arguments
(argCopy) and the dict built so far.  The membership test of line 149 is
made on argCopy: parameters is a Python dict, so its keys are distinct
and the keys already deleted from argCopy are earlier parameter keys,
hence membership in arguments and in argCopy coincide at every step (the
source reads the value from argCopy).  Line 152 compares the default
slot against the Python None sentinel. -/
def constructLoop : List (String × SpecEntry) → List (String × PyVal) →
    List (String × PyVal) → Except EvtError (List (String × PyVal))
  | [], argCopy, acc =>
      match argCopy with
      | [] => Except.ok acc
      | _ :: _ => Except.error (EvtError.unexpectedArgs (argCopy.map Prod.fst))
  | (key, entry) :: rest, argCopy, acc =>
      match extractSpec key entry with
      | Except.error e => Except.error e
      | Except.ok td =>
          match lookupA argCopy key with
          | some v =>
              if isinstance v td.1 then
                constructLoop rest (eraseA argCopy key) (acc ++ [(key, v)])
              else Except.error (EvtError.typeMismatch key)
          | none =>
              if td.2 ≠ PyVal.vNone then
                if isinstance td.2 td.1 then
                  constructLoop rest argCopy (acc ++ [(key, td.2)])
                else Except.error (EvtError.typeMismatch key)
              else Except.error (EvtError.missingArg key)

/-- Constructing an event instance: EventMeta.call looks the parameter
dict up and hands it to Event.some init together with the keyword
arguments; the instance carries the class name and class priority. -/
def construct (sc : Schema) (args : List (String × PyVal)) : Except EvtError EventInst :=
  match constructLoop sc.params args [] with
  | Except.ok kvs => Except.ok { typeId := sc.name, priority := sc.priority, payload := kvs }
  | Except.error e => Except.error e

/-- The priority argument check of EventType lines 180-187: isinstance
against int accepts int and bool (bool is an int subclass); the numeric
value of a bool priority is 0 or 1. -/
def pyToPriority : PyVal → Option Int
  | PyVal.vInt n => some n
  | PyVal.vBool b => some (if b then 1 else 0)
  | _ => none

/-- EventType of Event.py lines 170-201: removes priority from the
keyword arguments (default 10, must be an int), derives the class and
stores the remaining keyword arguments as the parameter dict without
inspecting them.  The call-stack name prefixing and the process-wide
duplicate-name registry are identity-bookkeeping orthogonal to the
claims and are not modelled: the caller-facing name stands for the
derived class name. -/
def EventType (nm : String) (priorityArg : Option PyVal)
    (specs : List (String × SpecEntry)) : Except EvtError Schema :=
  match priorityArg with
  | none => Except.ok { name := nm, priority := 10, params := specs }
  | some p =>
      match pyToPriority p with
      | some n => Except.ok { name := nm, priority := n, params := specs }
      | none => Except.error EvtError.badPriority

/-- Well-formedness of one declaration entry in the sense of the spec: a
bare type, or a (type, default) tuple whose default is an instance of
the type. -/
def entryWF : SpecEntry → Bool
  | SpecEntry.ofType _ => true
  | SpecEntry.pair (TpOrVal.tp t) (TpOrVal.vl v) => isinstance v t
  | _ => false

/-- The declared default of an entry, if the entry carries a tuple whose
second component is a value. -/
def entryDefault : SpecEntry → Option PyVal
  | SpecEntry.pair _ (TpOrVal.vl v) => some v
  | _ => none

/-- The declared type of an entry (meaningful for well-formed entries). -/
def specType : SpecEntry → PyType
  | SpecEntry.ofType t => t
  | SpecEntry.pair (TpOrVal.tp t) _ => t
  | _ => PyType.intT

/-- Whether an error is one of the three schema-declaration raises of
Event.py lines 141, 145 and 147. -/
def isSchemaError : EvtError → Bool
  | EvtError.schemaDeclPair _ => true
  | EvtError.schemaDeclDefault _ => true
  | EvtError.schemaDeclShape _ => true
  | _ => false

/-- The value a parameter resolves to: the supplied argument when
present, the declared default otherwise. -/
def resolvedOf (args : List (String × PyVal)) (kv : String × SpecEntry) : PyVal :=
  match lookupA args kv.1 with
  | some v => v
  | none => (entryDefault kv.2).getD PyVal.vNone

/-- Event.some eq of Event.py line 99: priority equality only. -/
def ev_eq (a b : EventInst) : Bool := decide (a.priority = b.priority)

/-- Event.some lt of Event.py line 102. -/
def ev_lt (a b : EventInst) : Bool := decide (a.priority < b.priority)

/-- Event.some gt of Event.py line 105. -/
def ev_gt (a b : EventInst) : Bool := decide (b.priority < a.priority)

/-- Event.some le of Event.py line 108. -/
def ev_le (a b : EventInst) : Bool := decide (a.priority ≤ b.priority)

/-- Event.some ge of Event.py line 111. -/
def ev_ge (a b : EventInst) : Bool := decide (b.priority ≤ a.priority)

/-- A Python callback object as the Publisher inspects it: whether it is
callable, whether inspect.ismethod holds of it, its dunder name, and an
identity tag distinguishing otherwise equal callables. -/
structure CallbackObj where
  ident : Nat
  callableB : Bool
  isMeth : Bool
  methName : String
deriving DecidableEq

/-- The distinct error exits of Publisher.py.  keyError is the uncaught
dict-indexing KeyError raised by lines 116 and 138 when the event type
is absent; the others correspond to the explicit raise statements. -/
inductive PubError where
  | alreadyRegistered (t : String)
  | notRegistered (t : String)
  | keyError (t : String)
  | alreadySubscribed (t : String)
  | notSubscribed (t : String)
  | notCallable
deriving DecidableEq

/-- Publisher state: the subscribers dict mapping each registered event
type to its ordered subscriber list (Python dicts preserve insertion
order). -/
structure PubState where
  subscribers : List (String × List CallbackObj)
deriving DecidableEq

/-- How publish invokes one subscriber: either with the event parameters
expanded as keyword arguments, or with the raw event instance. -/
inductive CallForm where
  | expanded (payload : List (String × PyVal))
  | raw (e : EventInst)
deriving DecidableEq

/-- Publisher.publish lines 158-161: a subscriber is handed the raw
event exactly when it is a bound method named the owning dispatcher
internal-event sink. -/
def recognizedSink (c : CallbackObj) : Bool :=
  c.isMeth && decide (c.methName = ("_publishInternalEvent"))

/-- Publisher.registerEvent lines 69-83: insert an empty subscriber list
when absent (dict insertion appends), raise when already present; the
mutation happens only on the non-raising path. -/
def registerEvent (s : PubState) (t : String) : PubState × Option PubError :=
  match lookupA s.subscribers t with
  | some _ => (s, some (PubError.alreadyRegistered t))
  | none => ({ subscribers := s.subscribers ++ [(t, [])] }, none)

/-- Publisher.unregisterEvent lines 85-100. -/
def unregisterEvent (s : PubState) (t : String) : PubState × Option PubError :=
  match lookupA s.subscribers t with
  | some _ => ({ subscribers := eraseA s.subscribers t }, none)
  | none => (s, some (PubError.notRegistered t))

/-- Publisher.subscribe lines 102-123.  The callable check of line 111
comes first.  Line 116 indexes the subscribers dict before the
registration flag is consulted, so an unregistered event type raises
KeyError there and the intended not-registered raise of lines 120-121 is
unreachable.  On the registered path a duplicate subscriber raises and a
new subscriber is appended at the end of the list. -/
def subscribe (s : PubState) (t : String) (call : CallbackObj) : PubState × Option PubError :=
  if call.callableB = false then (s, some PubError.notCallable)
  else
    match lookupA s.subscribers t with
    | none => (s, some (PubError.keyError t))
    | some subs =>
        if call ∈ subs then (s, some (PubError.alreadySubscribed t))
        else ({ subscribers := updateA s.subscribers t (subs ++ [call]) }, none)

/-- Publisher.unsubscribe lines 125-145, with the same line-138 KeyError
behaviour on an unregistered type; list.remove drops the first
occurrence. -/
def unsubscribe (s : PubState) (t : String) (call : CallbackObj) : PubState × Option PubError :=
  if call.callableB = false then (s, some PubError.notCallable)
  else
    match lookupA s.subscribers t with
    | none => (s, some (PubError.keyError t))
    | some subs =>
        if call ∈ subs then ({ subscribers := updateA s.subscribers t (subs.erase call) }, none)
        else (s, some (PubError.notSubscribed t))

/-- Publisher.publish lines 147-164: look the runtime type of the event
up; when registered, invoke every subscriber in list order, handing the
recognized dispatcher sink the raw event and every other subscriber the
expanded parameters; when unregistered, raise after the lock.  The
returned list records the synchronous invocations in order; the state is
never mutated by publish. -/
def publish (s : PubState) (e : EventInst) :
    PubState × Option PubError × List (CallbackObj × CallForm) :=
  match lookupA s.subscribers e.typeId with
  | some subs =>
      (s, none, subs.map (fun c =>
        (c, if recognizedSink c then CallForm.raw e else CallForm.expanded e.payload)))
  | none => (s, some (PubError.notRegistered e.typeId), [])

/-- Internal lifecycle events of the dispatcher. -/
inductive LifeEvt where
  | runningEvt
  | idleEvt
  | exitingEvt
deriving DecidableEq

/-- Items of the dispatcher input queue: the reserved Exit item or a
user event. -/
inductive QItem where
  | exitItem
  | userItem (e : EventInst)
deriving DecidableEq

/-- Dispatcher lifecycle status. -/
inductive DStatus where
  | created
  | started
  | terminated
deriving DecidableEq

/-- Dispatcher lifecycle errors. -/
inductive DispError where
  | alreadyStarted
deriving DecidableEq

/-- Modelled from the spec: the Dispatcher source file is not under the
available sources (only its tests and the package exports reference it),
so the lifecycle machinery of spec sections 3 and 4.4 is modelled here:
a status in Created, Running, Terminated, the input queue, and the trace
of internal lifecycle events the worker has published. -/
structure DispState where
  status : DStatus
  queue : List QItem
  trace : List LifeEvt
deriving DecidableEq

/-- Modelled from the spec: a freshly constructed dispatcher, worker
thread not yet started. -/
def dispNew : DispState := { status := DStatus.created, queue := [], trace := [] }

/-- Modelled from the spec: start launches the worker thread, which
immediately publishes Running internally and then enters the main loop;
starting twice is an error and changes nothing. -/
def dStart (d : DispState) : DispState × Option DispError :=
  match d.status with
  | DStatus.created =>
      ({ status := DStatus.started, queue := d.queue,
         trace := d.trace ++ [LifeEvt.runningEvt] }, none)
  | _ => (d, some DispError.alreadyStarted)

/-- Modelled from the spec: triggerExit enqueues the reserved Exit item
from any thread. -/
def dTriggerExit (d : DispState) : DispState :=
  { status := d.status, queue := d.queue ++ [QItem.exitItem], trace := d.trace }

/-- Modelled from the spec: the worker main loop drains the queue; when
it dequeues the reserved Exit item it publishes Exiting internally,
stops accepting further queue processing and terminates. -/
def drainQueue : List QItem → List LifeEvt
  | [] => []
  | QItem.exitItem :: _ => [LifeEvt.exitingEvt]
  | QItem.userItem _ :: rest => drainQueue rest

/-- Modelled from the spec: join blocks the caller until the worker has
terminated; the worker run is serialized into join, so the state after
join carries the complete trace of internal lifecycle events published
before join returned. -/
def dJoin (d : DispState) : DispState :=
  match d.status with
  | DStatus.started =>
      { status := DStatus.terminated, queue := [],
        trace := d.trace ++ drainQueue d.queue }
  | _ => d

/-- Concrete schema for the C1 counterexample: one parameter of type
NoneType with declared default None (well-formed per the spec: None is
an instance of NoneType). -/
def c1exSchema : Schema :=
  { name := ("C1Ex"), priority := 10,
    params := [(("q"), SpecEntry.pair (TpOrVal.tp PyType.noneT) (TpOrVal.vl PyVal.vNone))] }

/-- Concrete schema for the C1 witness (the spec section 8 example). -/
def c1wSchema : Schema :=
  { name := ("E"), priority := 5,
    params := [(("p1"), SpecEntry.ofType PyType.intT),
               (("p2"), SpecEntry.pair (TpOrVal.tp PyType.strT) (TpOrVal.vl (PyVal.vStr ("x"))))] }

/-- Concrete arguments for the C1 witness. -/
def c1wArgs : List (String × PyVal) := [(("p1"), PyVal.vInt 1)]

/-- Concrete schema for the C2 counterexample. -/
def c2exSchema : Schema :=
  { name := ("C2Ex"), priority := 10,
    params := [(("p"), SpecEntry.pair (TpOrVal.tp PyType.noneT) (TpOrVal.vl PyVal.vNone))] }

/-- Concrete schema for the C2 witness. -/
def c2wSchema : Schema :=
  { name := ("W2"), priority := 10, params := [(("p1"), SpecEntry.ofType PyType.intT)] }

/-- Concrete schema for the C3 counterexample. -/
def c3exSchema : Schema :=
  { name := ("C3Ex"), priority := 10, params := [(("a"), SpecEntry.ofType PyType.intT)] }

/-- Concrete arguments for the C3 counterexample: one undeclared key. -/
def c3exArgs : List (String × PyVal) := [(("z"), PyVal.vInt 1)]

/-- Concrete schema for the C3 witness. -/
def c3wSchema : Schema :=
  { name := ("W3"), priority := 10, params := [(("p1"), SpecEntry.ofType PyType.intT)] }

/-- Concrete arguments for the C3 witness: required parameter plus one
undeclared key. -/
def c3wArgs : List (String × PyVal) := [(("p1"), PyVal.vInt 1), (("zz"), PyVal.vInt 2)]

/-- Concrete schema for the C4 counterexample. -/
def c4exSchema : Schema :=
  { name := ("C4Ex"), priority := 10,
    params := [(("a"), SpecEntry.ofType PyType.intT), (("b"), SpecEntry.ofType PyType.intT)] }

/-- Concrete arguments for the C4 counterexample: a mismatched value for
the second parameter while the first is missing. -/
def c4exArgs : List (String × PyVal) := [(("b"), PyVal.vStr ("s"))]

/-- Concrete schema for the C4 witness. -/
def c4wSchema : Schema :=
  { name := ("W4"), priority := 10, params := [(("p1"), SpecEntry.ofType PyType.intT)] }

/-- Concrete arguments for the C4 witness: a string supplied for an int
parameter. -/
def c4wArgs : List (String × PyVal) := [(("p1"), PyVal.vStr ("bad"))]

/-- Concrete event instances for the C5 witness. -/
def evA : EventInst := { typeId := ("A"), priority := 1, payload := [] }

/-- Second concrete instance for the C5 witness, of a different type and
payload. -/
def evB : EventInst := { typeId := ("B"), priority := 2, payload := [(("x"), PyVal.vInt 0)] }

/-- Third concrete instance for the C5 witness. -/
def evC : EventInst := { typeId := ("C"), priority := 3, payload := [] }

/-- Concrete malformed parameter specification for C6: the entry is a
plain int, neither a type nor a tuple. -/
def c6badSpecs : List (String × SpecEntry) := [(("p"), SpecEntry.other (PyVal.vInt 5))]

/-- The schema EventType produces for the malformed C6 specification. -/
def c6badSchema : Schema := { name := ("Bad"), priority := 10, params := c6badSpecs }

/-- Concrete callable callback for C7. -/
def c7cb : CallbackObj := { ident := 0, callableB := true, isMeth := false, methName := ("cb") }

/-- Publisher with no registered event types, for C7. -/
def c7empty : PubState := { subscribers := [] }

/-- An ordinary subscriber for the C8 witness. -/
def c8norm : CallbackObj := { ident := 1, callableB := true, isMeth := false, methName := ("onEvent") }

/-- A subscriber recognized as a dispatcher internal-event sink, for the
C8 witness. -/
def c8sink : CallbackObj := { ident := 2, callableB := true, isMeth := true, methName := ("_publishInternalEvent") }

/-- Publisher state for the C8 witness: one registered type with an
ordinary subscriber followed by a sink subscriber. -/
def c8state : PubState := { subscribers := [(("Out"), [c8norm, c8sink])] }

/-- Event instance for the C8 witness. -/
def c8event : EventInst := { typeId := ("Out"), priority := 10, payload := [(("x"), PyVal.vInt 7)] }

/-- Concrete callback for the C10 witness. -/
def c10cb : CallbackObj := { ident := 3, callableB := true, isMeth := false, methName := ("cb") }

/-- Publisher state for the C10 witness: the type T is registered, so
registering it again fails. -/
def c10state : PubState := { subscribers := [(("T"), [])] }

/-- Event of an unregistered type for the C10 witness. -/
def c10event : EventInst := { typeId := ("U"), priority := 10, payload := [] }

/- Helper lemmas about the association-list operations. -/

theorem lookupA_eq_none_iff {α : Type} (m : List (String × α)) (k : String) :
    lookupA m k = none ↔ ∀ kv ∈ m, kv.1 ≠ k := by
  induction m with
  | nil => simp [lookupA]
  | cons kv rest ih =>
      by_cases h : kv.1 = k
      · simp [lookupA, h]
      · simp [lookupA, h, ih]

theorem lookupA_ne_none_of_mem {α : Type} {m : List (String × α)} {k : String} {v : α}
    (h : (k, v) ∈ m) : lookupA m k ≠ none := by
  intro hn
  rw [lookupA_eq_none_iff] at hn
  exact hn (k, v) h rfl

theorem mem_eraseA {α : Type} (m : List (String × α)) (k : String) (kv : String × α) :
    kv ∈ eraseA m k ↔ kv ∈ m ∧ kv.1 ≠ k := by
  induction m with
  | nil => simp [eraseA]
  | cons hd rest ih =>
      by_cases h : hd.1 = k
      · rw [eraseA, if_pos h, ih]
        constructor
        · rintro ⟨hm, hne⟩; exact ⟨List.mem_cons_of_mem _ hm, hne⟩
        · rintro ⟨hm, hne⟩
          rcases List.mem_cons.mp hm with he | hm2
          · subst he; exact absurd h hne
          · exact ⟨hm2, hne⟩
      · rw [eraseA, if_neg h]
        constructor
        · intro hm
          rcases List.mem_cons.mp hm with he | hm2
          · subst he; exact ⟨List.mem_cons_self _ _, h⟩
          · rcases (ih).mp hm2 with ⟨hm3, hne⟩
            exact ⟨List.mem_cons_of_mem _ hm3, hne⟩
        · rintro ⟨hm, hne⟩
          rcases List.mem_cons.mp hm with he | hm2
          · subst he; exact List.mem_cons_self _ _
          · exact List.mem_cons_of_mem _ ((ih).mpr ⟨hm2, hne⟩)

theorem lookupA_eraseA_ne {α : Type} (m : List (String × α)) (k k2 : String) (h : k2 ≠ k) :
    lookupA (eraseA m k) k2 = lookupA m k2 := by
  induction m with
  | nil => simp [eraseA]
  | cons hd rest ih =>
      by_cases h1 : hd.1 = k
      · have h2 : hd.1 ≠ k2 := by rw [h1]; exact fun he => h he.symm
        rw [eraseA, if_pos h1, lookupA, if_neg h2, ih]
      · by_cases h2 : hd.1 = k2
        · rw [eraseA, if_neg h1, lookupA, if_pos h2, lookupA, if_pos h2]
        · rw [eraseA, if_neg h1, lookupA, if_neg h2, lookupA, if_neg h2, ih]

theorem optionAll_some {α : Type} {p : α → Bool} {o : Option α} {v : α}
    (h : o.all p = true) (hv : o = some v) : p v = true := by
  subst hv
  simpa [Option.all] using h

/- Helper lemmas about extractSpec under well-formedness. -/

theorem extractSpec_wf (key : String) (e : SpecEntry) (h : entryWF e = true) :
    extractSpec key e = Except.ok (specType e, (entryDefault e).getD PyVal.vNone) := by
  cases e with
  | ofType t => rfl
  | pair f s =>
      cases f with
      | tp t =>
          cases s with
          | vl v =>
              have hv : isinstance v t = true := by simpa [entryWF] using h
              simp [extractSpec, specType, entryDefault, hv]
          | tp t2 => simp [entryWF] at h
      | vl v => simp [entryWF] at h
  | other v => simp [entryWF] at h

theorem entryWF_default_isinstance (e : SpecEntry) (d : PyVal) (h : entryWF e = true)
    (hd : entryDefault e = some d) : isinstance d (specType e) = true := by
  cases e with
  | ofType t => simp [entryDefault] at hd
  | pair f s =>
      cases f with
      | tp t =>
          cases s with
          | vl v =>
              have hv : isinstance v t = true := by simpa [entryWF] using h
              have : v = d := by simpa [entryDefault] using hd
              subst this
              simpa [specType] using hv
          | tp t2 => simp [entryWF] at h
      | vl v => simp [entryWF] at h
  | other v => simp [entryWF] at h

theorem extractSpec_not_wf (key : String) (e : SpecEntry) (h : entryWF e = false) :
    ∃ er, extractSpec key e = Except.error er ∧ isSchemaError er = true := by
  cases e with
  | ofType t => simp [entryWF] at h
  | pair f s =>
      cases f with
      | tp t =>
          cases s with
          | vl v =>
              have hv : isinstance v t = false := by simpa [entryWF] using h
              exact ⟨EvtError.schemaDeclDefault key, by simp [extractSpec, hv], rfl⟩
          | tp t2 => exact ⟨EvtError.schemaDeclDefault key, rfl, rfl⟩
      | vl v => exact ⟨EvtError.schemaDeclPair key, rfl, rfl⟩
  | other v => exact ⟨EvtError.schemaDeclShape key, rfl, rfl⟩

theorem construct_error_iff (sc : Schema) (args : List (String × PyVal)) (e0 : EvtError) :
    construct sc args = Except.error e0 ↔ constructLoop sc.params args [] = Except.error e0 := by
  unfold construct
  cases h : constructLoop sc.params args [] <;> simp

/- C1 infrastructure: the success run of the construction loop. -/

theorem constructLoop_ok_of (params : List (String × SpecEntry)) :
    ∀ (argCopy acc : List (String × PyVal)),
    (∀ kv ∈ params, entryWF kv.2 = true) →
    (∀ kv ∈ params, entryDefault kv.2 ≠ some PyVal.vNone) →
    (params.map Prod.fst).Nodup →
    (∀ kv ∈ argCopy, kv.1 ∈ params.map Prod.fst) →
    (∀ kv ∈ params, entryDefault kv.2 = none → lookupA argCopy kv.1 ≠ none) →
    (∀ kv ∈ params, ∀ v, lookupA argCopy kv.1 = some v → isinstance v (specType kv.2) = true) →
    constructLoop params argCopy acc =
      Except.ok (acc ++ params.map (fun kv => (kv.1, resolvedOf argCopy kv))) := by
  induction params with
  | nil =>
      intro argCopy acc _ _ _ hdecl _ _
      have hemp : argCopy = [] := by
        cases argCopy with
        | nil => rfl
        | cons kv rest => exact absurd (hdecl kv (List.mem_cons_self _ _)) (by simp)
      subst hemp
      simp [constructLoop]
  | cons hd rest ih =>
      intro argCopy acc hwf hnf hnd hdecl hreq hmatch
      obtain ⟨k, e⟩ := hd
      have hmem : (k, e) ∈ (k, e) :: rest := List.mem_cons_self _ _
      have hwfe : entryWF e = true := hwf (k, e) hmem
      have hknr : k ∉ rest.map Prod.fst := (List.nodup_cons.mp hnd).1
      have hndr : (rest.map Prod.fst).Nodup := (List.nodup_cons.mp hnd).2
      rw [constructLoop, extractSpec_wf k e hwfe]
      cases hlk : lookupA argCopy k with
      | some v =>
          have hinst : isinstance v (specType e) = true := hmatch (k, e) hmem v hlk
          simp only [hlk, hinst, if_true]
          rw [ih (eraseA argCopy k) (acc ++ [(k, v)])
            (fun kv hm => hwf kv (List.mem_cons_of_mem _ hm))
            (fun kv hm => hnf kv (List.mem_cons_of_mem _ hm))
            hndr
            (fun kv hm => by
              rcases (mem_eraseA argCopy k kv).mp hm with ⟨hma, hne⟩
              rcases List.mem_cons.mp (hdecl kv hma) with he | hr
              · exact absurd he hne
              · exact hr)
            (fun kv hm hde => by
              have hne : kv.1 ≠ k := by
                intro he
                exact hknr (he ▸ List.mem_map_of_mem Prod.fst hm)
              rw [lookupA_eraseA_ne argCopy k kv.1 hne]
              exact hreq kv (List.mem_cons_of_mem _ hm) hde)
            (fun kv hm v2 hv2 => by
              have hne : kv.1 ≠ k := by
                intro he
                exact hknr (he ▸ List.mem_map_of_mem Prod.fst hm)
              rw [lookupA_eraseA_ne argCopy k kv.1 hne] at hv2
              exact hmatch kv (List.mem_cons_of_mem _ hm) v2 hv2)]
          have hres : resolvedOf argCopy (k, e) = v := by simp [resolvedOf, hlk]
          have hmap : rest.map (fun kv => (kv.1, resolvedOf (eraseA argCopy k) kv)) =
              rest.map (fun kv => (kv.1, resolvedOf argCopy kv)) := by
            refine List.map_congr_left ?_
            intro kv hm
            have hne : kv.1 ≠ k := by
              intro he
              exact hknr (he ▸ List.mem_map_of_mem Prod.fst hm)
            simp [resolvedOf, lookupA_eraseA_ne argCopy k kv.1 hne]
          rw [hmap]
          simp [hres]
      | none =>
          cases hdef : entryDefault e with
          | none => exact absurd hlk (hreq (k, e) hmem hdef)
          | some d =>
              have hdne : d ≠ PyVal.vNone := by
                intro he
                exact hnf (k, e) hmem (by rw [hdef, he])
              have hinstd : isinstance d (specType e) = true :=
                entryWF_default_isinstance e d hwfe hdef
              simp only [hlk, hdef, Option.getD_some]
              rw [if_pos hdne]
              simp only [hinstd, if_true]
              rw [ih argCopy (acc ++ [(k, d)])
                (fun kv hm => hwf kv (List.mem_cons_of_mem _ hm))
                (fun kv hm => hnf kv (List.mem_cons_of_mem _ hm))
                hndr
                (fun kv hm => by
                  rcases List.mem_cons.mp (hdecl kv hm) with he | hr
                  · exfalso
                    have he2 : kv.1 = k := he
                    have hmm : (kv.1, kv.2) ∈ argCopy := by simpa using hm
                    have hne := lookupA_ne_none_of_mem hmm
                    rw [he2] at hne
                    exact hne hlk
                  · exact hr)
                (fun kv hm hde => hreq kv (List.mem_cons_of_mem _ hm) hde)
                (fun kv hm v2 hv2 => hmatch kv (List.mem_cons_of_mem _ hm) v2 hv2)]
              have hres : resolvedOf argCopy (k, e) = d := by simp [resolvedOf, hlk, hdef]
              simp [hres]

/-- C1: for a schema whose parameter declarations are well-formed, with
distinct parameter names as in a Python dict, and in which no declared
default is the Python value None, constructing with every non-defaulted
parameter supplied, every supplied key declared and every supplied value
an instance of its declared type succeeds, and the instance carries
exactly the declared parameter names in declaration order, each mapped
to the supplied value, or to the schema default for defaulted
parameters that were not supplied.  (Amended from the claim: a declared
default of None must be excluded, because Event.py line 152 uses None as
the no-default sentinel and treats such a parameter as required.) -/
theorem construct_wellformed_ok (sc : Schema) (args : List (String × PyVal))
    (hwf : ∀ kv ∈ sc.params, entryWF kv.2 = true)
    (hnf : ∀ kv ∈ sc.params, entryDefault kv.2 ≠ some PyVal.vNone)
    (hnd : (sc.params.map Prod.fst).Nodup)
    (hdecl : ∀ kv ∈ args, kv.1 ∈ sc.params.map Prod.fst)
    (hreq : ∀ kv ∈ sc.params, entryDefault kv.2 = none → lookupA args kv.1 ≠ none)
    (hmatch : ∀ kv ∈ sc.params,
      (lookupA args kv.1).all (fun v => isinstance v (specType kv.2)) = true) :
    construct sc args = Except.ok
      { typeId := sc.name, priority := sc.priority,
        payload := sc.params.map (fun kv => (kv.1, resolvedOf args kv)) } ∧
    (sc.params.map (fun kv => (kv.1, resolvedOf args kv))).map Prod.fst =
      sc.params.map Prod.fst := by
  constructor
  · unfold construct
    rw [constructLoop_ok_of sc.params args [] hwf hnf hnd hdecl hreq
      (fun kv hm v hv => by
        have h2 := hmatch kv hm
        have h3 := optionAll_some h2 hv
        exact h3)]
    simp
  · simp

/-- C1 witness: the spec section 8 example FullEvent with priority 5,
p1 of type int required and p2 of type str defaulting to x; supplying
only p1 yields exactly the two declared keys with the supplied and
default values. -/
theorem construct_wellformed_ok_witness :
    construct c1wSchema c1wArgs = Except.ok
      { typeId := ("E"), priority := 5,
        payload := [(("p1"), PyVal.vInt 1), (("p2"), PyVal.vStr ("x"))] } := by
  have h := (construct_wellformed_ok c1wSchema c1wArgs (by decide) (by decide)
    (by decide) (by decide) (by decide) (by decide)).1
  rw [h]
  rfl

/-- C1 counterexample: the claim as stated fails.  The schema with the
single parameter q of declared type NoneType and declared default None
is well-formed in the claim's sense (each entry a bare type or a (type,
default) pair whose default is an instance of that type), the argument
map is empty, so every non-defaulted parameter is supplied and no
undeclared key exists, yet construction raises the missing-argument
RuntimeError of Event.py line 155 instead of succeeding, because line
152 conflates the declared default None with the no-default sentinel. -/
theorem construct_c1_counterexample :
    (∀ kv ∈ c1exSchema.params, entryWF kv.2 = true) ∧
    (∀ kv ∈ c1exSchema.params, entryDefault kv.2 ≠ none) ∧
    construct c1exSchema [] = Except.error (EvtError.missingArg ("q")) := by
  refine ⟨by decide, by decide, ?_⟩
  rfl

/- C2 infrastructure: characterization of the missing-argument failure. -/

theorem constructLoop_missing_iff (params : List (String × SpecEntry)) :
    ∀ (argCopy acc : List (String × PyVal)),
    (∀ kv ∈ params, entryWF kv.2 = true) →
    (∀ kv ∈ params, entryDefault kv.2 ≠ some PyVal.vNone) →
    (params.map Prod.fst).Nodup →
    (∀ kv ∈ params, ∀ v, lookupA argCopy kv.1 = some v → isinstance v (specType kv.2) = true) →
    ((∃ k2, constructLoop params argCopy acc = Except.error (EvtError.missingArg k2)) ↔
      ∃ kv ∈ params, entryDefault kv.2 = none ∧ lookupA argCopy kv.1 = none) := by
  induction params with
  | nil =>
      intro argCopy acc _ _ _ _
      constructor
      · rintro ⟨k2, hk2⟩
        exfalso
        cases argCopy with
        | nil => simp [constructLoop] at hk2
        | cons kv rest => simp [constructLoop] at hk2
      · rintro ⟨kv, hm, _⟩
        exact absurd hm (by simp)
  | cons hd rest ih =>
      intro argCopy acc hwf hnf hnd hmatch
      obtain ⟨k, e⟩ := hd
      have hmem : (k, e) ∈ (k, e) :: rest := List.mem_cons_self _ _
      have hwfe : entryWF e = true := hwf (k, e) hmem
      have hknr : k ∉ rest.map Prod.fst := (List.nodup_cons.mp hnd).1
      have hndr : (rest.map Prod.fst).Nodup := (List.nodup_cons.mp hnd).2
      rw [constructLoop, extractSpec_wf k e hwfe]
      cases hlk : lookupA argCopy k with
      | some v =>
          have hinst : isinstance v (specType e) = true := hmatch (k, e) hmem v hlk
          simp only [hinst, if_true]
          rw [ih (eraseA argCopy k) (acc ++ [(k, v)])
            (fun kv hm => hwf kv (List.mem_cons_of_mem _ hm))
            (fun kv hm => hnf kv (List.mem_cons_of_mem _ hm))
            hndr
            (fun kv hm v2 hv2 => by
              have hne : kv.1 ≠ k := by
                intro he
                exact hknr (he ▸ List.mem_map_of_mem Prod.fst hm)
              rw [lookupA_eraseA_ne argCopy k kv.1 hne] at hv2
              exact hmatch kv (List.mem_cons_of_mem _ hm) v2 hv2)]
          constructor
          · rintro ⟨kv, hm, hde, hl⟩
            have hne : kv.1 ≠ k := by
              intro he
              exact hknr (he ▸ List.mem_map_of_mem Prod.fst hm)
            rw [lookupA_eraseA_ne argCopy k kv.1 hne] at hl
            exact ⟨kv, List.mem_cons_of_mem _ hm, hde, hl⟩
          · rintro ⟨kv, hm, hde, hl⟩
            rcases List.mem_cons.mp hm with he | hm2
            · exfalso
              subst he
              have hl2 : lookupA argCopy k = none := hl
              rw [hlk] at hl2
              exact Option.noConfusion hl2
            · have hne : kv.1 ≠ k := by
                intro he
                exact hknr (he ▸ List.mem_map_of_mem Prod.fst hm2)
              rw [← lookupA_eraseA_ne argCopy k kv.1 hne] at hl
              exact ⟨kv, hm2, hde, hl⟩
      | none =>
          cases hdef : entryDefault e with
          | some d =>
              have hdne : d ≠ PyVal.vNone := by
                intro he
                exact hnf (k, e) hmem (by rw [hdef, he])
              have hinstd : isinstance d (specType e) = true :=
                entryWF_default_isinstance e d hwfe hdef
              simp only [Option.getD_some]
              rw [if_pos hdne]
              simp only [hinstd, if_true]
              rw [ih argCopy (acc ++ [(k, d)])
                (fun kv hm => hwf kv (List.mem_cons_of_mem _ hm))
                (fun kv hm => hnf kv (List.mem_cons_of_mem _ hm))
                hndr
                (fun kv hm v2 hv2 => hmatch kv (List.mem_cons_of_mem _ hm) v2 hv2)]
              constructor
              · rintro ⟨kv, hm, hde, hl⟩
                exact ⟨kv, List.mem_cons_of_mem _ hm, hde, hl⟩
              · rintro ⟨kv, hm, hde, hl⟩
                rcases List.mem_cons.mp hm with he | hm2
                · exfalso
                  subst he
                  have hde2 : entryDefault e = none := hde
                  rw [hdef] at hde2
                  exact Option.noConfusion hde2
                · exact ⟨kv, hm2, hde, hl⟩
          | none =>
              simp only [Option.getD_none]
              rw [if_neg (fun h => h rfl)]
              constructor
              · intro _
                exact ⟨(k, e), hmem, hdef, hlk⟩
              · intro _
                exact ⟨k, rfl⟩

/-- C2: amended missing-argument characterization.  For a schema whose
parameter declarations are well-formed, with distinct parameter names
and no declared default equal to Python None, and an argument map whose
every value supplied for a declared parameter is an instance of that
parameter's declared type, construction fails with the missing-argument
RuntimeError of Event.py line 155 iff some declared parameter with no
declared default is absent from the supplied arguments.  (Amended from
the claim: a declared default of None is treated as no default by the
sentinel comparison of line 152, and a type mismatch on an earlier
parameter in schema order preempts the missing-argument check, so the
unrestricted iff of the claim is false.) -/
theorem construct_missing_iff (sc : Schema) (args : List (String × PyVal))
    (hwf : ∀ kv ∈ sc.params, entryWF kv.2 = true)
    (hnf : ∀ kv ∈ sc.params, entryDefault kv.2 ≠ some PyVal.vNone)
    (hnd : (sc.params.map Prod.fst).Nodup)
    (hmatch : ∀ kv ∈ sc.params,
      (lookupA args kv.1).all (fun v => isinstance v (specType kv.2)) = true) :
    (∃ k, construct sc args = Except.error (EvtError.missingArg k)) ↔
      ∃ kv ∈ sc.params, entryDefault kv.2 = none ∧ lookupA args kv.1 = none := by
  have h := constructLoop_missing_iff sc.params args [] hwf hnf hnd
    (fun kv hm v hv => by
      have h2 := hmatch kv hm
      have h3 := optionAll_some h2 hv
      exact h3)
  rw [← h]
  constructor
  · rintro ⟨k, hk⟩
    exact ⟨k, (construct_error_iff sc args (EvtError.missingArg k)).mp hk⟩
  · rintro ⟨k, hk⟩
    exact ⟨k, (construct_error_iff sc args (EvtError.missingArg k)).mpr hk⟩

/-- C2 witness: the schema with a single required int parameter p1 and
an empty argument map fails with a missing-argument error. -/
theorem construct_missing_iff_witness :
    ∃ k, construct c2wSchema [] = Except.error (EvtError.missingArg k) :=
  (construct_missing_iff c2wSchema [] (by decide) (by decide) (by decide)
    (by decide)).mpr (by decide)

/-- C2 counterexample: the claim as stated fails.  The schema declares
the single parameter p with declared type NoneType and declared default
None, and the argument map is empty: no declared parameter lacks a
default, so by the claim no missing-argument error may be raised and the
default must be used, yet Event.py line 152 treats the None default as
the no-default sentinel and line 155 raises the missing-argument error. -/
theorem construct_c2_counterexample :
    construct c2exSchema [] = Except.error (EvtError.missingArg ("p")) ∧
    (∀ kv ∈ c2exSchema.params, entryDefault kv.2 ≠ none) ∧
    (∀ kv ∈ c2exSchema.params, entryWF kv.2 = true) := by
  refine ⟨?_, by decide, by decide⟩
  rfl

/- C3 infrastructure: characterization of the extra-argument failure. -/

theorem constructLoop_unexpected_iff (params : List (String × SpecEntry)) :
    ∀ (argCopy acc : List (String × PyVal)),
    (∀ kv ∈ params, entryWF kv.2 = true) →
    (∀ kv ∈ params, entryDefault kv.2 ≠ some PyVal.vNone) →
    (params.map Prod.fst).Nodup →
    (∀ kv ∈ params, entryDefault kv.2 = none → lookupA argCopy kv.1 ≠ none) →
    (∀ kv ∈ params, ∀ v, lookupA argCopy kv.1 = some v → isinstance v (specType kv.2) = true) →
    ((∃ ks, constructLoop params argCopy acc = Except.error (EvtError.unexpectedArgs ks)) ↔
      ∃ kv ∈ argCopy, kv.1 ∉ params.map Prod.fst) := by
  induction params with
  | nil =>
      intro argCopy acc _ _ _ _ _
      cases argCopy with
      | nil =>
          constructor
          · rintro ⟨ks, hk⟩
            simp [constructLoop] at hk
          · rintro ⟨kv, hm, _⟩
            exact absurd hm (by simp)
      | cons kv rest =>
          constructor
          · intro _
            exact ⟨kv, List.mem_cons_self _ _, by simp⟩
          · intro _
            exact ⟨(kv :: rest).map Prod.fst, rfl⟩
  | cons hd rest ih =>
      intro argCopy acc hwf hnf hnd hreq hmatch
      obtain ⟨k, e⟩ := hd
      have hmem : (k, e) ∈ (k, e) :: rest := List.mem_cons_self _ _
      have hwfe : entryWF e = true := hwf (k, e) hmem
      have hknr : k ∉ rest.map Prod.fst := (List.nodup_cons.mp hnd).1
      have hndr : (rest.map Prod.fst).Nodup := (List.nodup_cons.mp hnd).2
      rw [constructLoop, extractSpec_wf k e hwfe]
      cases hlk : lookupA argCopy k with
      | some v =>
          have hinst : isinstance v (specType e) = true := hmatch (k, e) hmem v hlk
          simp only [hinst, if_true]
          rw [ih (eraseA argCopy k) (acc ++ [(k, v)])
            (fun kv hm => hwf kv (List.mem_cons_of_mem _ hm))
            (fun kv hm => hnf kv (List.mem_cons_of_mem _ hm))
            hndr
            (fun kv hm hde => by
              have hne : kv.1 ≠ k := by
                intro he
                exact hknr (he ▸ List.mem_map_of_mem Prod.fst hm)
              rw [lookupA_eraseA_ne argCopy k kv.1 hne]
              exact hreq kv (List.mem_cons_of_mem _ hm) hde)
            (fun kv hm v2 hv2 => by
              have hne : kv.1 ≠ k := by
                intro he
                exact hknr (he ▸ List.mem_map_of_mem Prod.fst hm)
              rw [lookupA_eraseA_ne argCopy k kv.1 hne] at hv2
              exact hmatch kv (List.mem_cons_of_mem _ hm) v2 hv2)]
          constructor
          · rintro ⟨kv, hm, hnm⟩
            rcases (mem_eraseA argCopy k kv).mp hm with ⟨hm2, hne⟩
            refine ⟨kv, hm2, fun hc => ?_⟩
            rcases List.mem_cons.mp hc with he | hr
            · exact hne he
            · exact hnm hr
          · rintro ⟨kv, hm, hnm⟩
            have hne : kv.1 ≠ k := fun he => hnm (he ▸ List.mem_cons_self _ _)
            exact ⟨kv, (mem_eraseA argCopy k kv).mpr ⟨hm, hne⟩,
              fun hr => hnm (List.mem_cons_of_mem _ hr)⟩
      | none =>
          cases hdef : entryDefault e with
          | some d =>
              have hdne : d ≠ PyVal.vNone := by
                intro he
                exact hnf (k, e) hmem (by rw [hdef, he])
              have hinstd : isinstance d (specType e) = true :=
                entryWF_default_isinstance e d hwfe hdef
              simp only [Option.getD_some]
              rw [if_pos hdne]
              simp only [hinstd, if_true]
              rw [ih argCopy (acc ++ [(k, d)])
                (fun kv hm => hwf kv (List.mem_cons_of_mem _ hm))
                (fun kv hm => hnf kv (List.mem_cons_of_mem _ hm))
                hndr
                (fun kv hm hde => hreq kv (List.mem_cons_of_mem _ hm) hde)
                (fun kv hm v2 hv2 => hmatch kv (List.mem_cons_of_mem _ hm) v2 hv2)]
              constructor
              · rintro ⟨kv, hm, hnm⟩
                refine ⟨kv, hm, fun hc => ?_⟩
                rcases List.mem_cons.mp hc with he | hr
                · have hmm : (kv.1, kv.2) ∈ argCopy := by simpa using hm
                  have hne := lookupA_ne_none_of_mem hmm
                  have he2 : kv.1 = k := he
                  rw [he2] at hne
                  exact hne hlk
                · exact hnm hr
              · rintro ⟨kv, hm, hnm⟩
                exact ⟨kv, hm, fun hr => hnm (List.mem_cons_of_mem _ hr)⟩
          | none =>
              exact absurd hlk (hreq (k, e) hmem hdef)

/-- C3: amended extra-argument characterization.  For a schema whose
parameter declarations are well-formed, with distinct parameter names
and no declared default equal to Python None, and an argument map that
supplies every non-defaulted parameter and whose values for declared
parameters are instances of the declared types, construction fails with
the extra-arguments RuntimeError of Event.py line 163 iff some supplied
key is not declared in the schema; extra arguments are never silently
dropped.  (Amended from the claim: an earlier missing-argument or
type-mismatch failure inside the parameter loop preempts the
extra-argument check of line 162, so the unrestricted iff of the claim
is false.) -/
theorem construct_unexpected_iff (sc : Schema) (args : List (String × PyVal))
    (hwf : ∀ kv ∈ sc.params, entryWF kv.2 = true)
    (hnf : ∀ kv ∈ sc.params, entryDefault kv.2 ≠ some PyVal.vNone)
    (hnd : (sc.params.map Prod.fst).Nodup)
    (hreq : ∀ kv ∈ sc.params, entryDefault kv.2 = none → lookupA args kv.1 ≠ none)
    (hmatch : ∀ kv ∈ sc.params,
      (lookupA args kv.1).all (fun v => isinstance v (specType kv.2)) = true) :
    (∃ ks, construct sc args = Except.error (EvtError.unexpectedArgs ks)) ↔
      ∃ kv ∈ args, kv.1 ∉ sc.params.map Prod.fst := by
  have h := constructLoop_unexpected_iff sc.params args [] hwf hnf hnd hreq
    (fun kv hm v hv => by
      have h2 := hmatch kv hm
      have h3 := optionAll_some h2 hv
      exact h3)
  rw [← h]
  constructor
  · rintro ⟨ks, hk⟩
    exact ⟨ks, (construct_error_iff sc args (EvtError.unexpectedArgs ks)).mp hk⟩
  · rintro ⟨ks, hk⟩
    exact ⟨ks, (construct_error_iff sc args (EvtError.unexpectedArgs ks)).mpr hk⟩

/-- C3 witness: supplying the declared int parameter p1 together with
the undeclared key zz fails with an extra-arguments error. -/
theorem construct_unexpected_iff_witness :
    ∃ ks, construct c3wSchema c3wArgs = Except.error (EvtError.unexpectedArgs ks) :=
  (construct_unexpected_iff c3wSchema c3wArgs (by decide) (by decide) (by decide)
    (by decide) (by decide)).mpr (by decide)

/-- C3 counterexample: the claim as stated fails.  The schema declares
the single required int parameter a, and the argument map supplies only
the undeclared key z: a supplied key is not declared, so by the claim
construction must fail with an unexpected-argument error, yet the
parameter loop of Event.py raises the missing-argument RuntimeError for
the parameter a at line 155 before the extra-argument check at line 162
is reached. -/
theorem construct_c3_counterexample :
    construct c3exSchema c3exArgs = Except.error (EvtError.missingArg ("a")) ∧
    (("z") ∈ c3exArgs.map Prod.fst ∧ ("z") ∉ c3exSchema.params.map Prod.fst) := by
  refine ⟨?_, by decide⟩
  rfl

/- C4 infrastructure: characterization of the type-mismatch failure. -/

theorem constructLoop_mismatch_iff (params : List (String × SpecEntry)) :
    ∀ (argCopy acc : List (String × PyVal)),
    (∀ kv ∈ params, entryWF kv.2 = true) →
    (∀ kv ∈ params, entryDefault kv.2 ≠ some PyVal.vNone) →
    (params.map Prod.fst).Nodup →
    (∀ kv ∈ params, entryDefault kv.2 = none → lookupA argCopy kv.1 ≠ none) →
    ((∃ k2, constructLoop params argCopy acc = Except.error (EvtError.typeMismatch k2)) ↔
      ∃ kv ∈ params, ∃ v, lookupA argCopy kv.1 = some v ∧
        isinstance v (specType kv.2) = false) := by
  induction params with
  | nil =>
      intro argCopy acc _ _ _ _
      constructor
      · rintro ⟨k2, hk2⟩
        exfalso
        cases argCopy with
        | nil => simp [constructLoop] at hk2
        | cons kv rest => simp [constructLoop] at hk2
      · rintro ⟨kv, hm, _⟩
        exact absurd hm (by simp)
  | cons hd rest ih =>
      intro argCopy acc hwf hnf hnd hreq
      obtain ⟨k, e⟩ := hd
      have hmem : (k, e) ∈ (k, e) :: rest := List.mem_cons_self _ _
      have hwfe : entryWF e = true := hwf (k, e) hmem
      have hknr : k ∉ rest.map Prod.fst := (List.nodup_cons.mp hnd).1
      have hndr : (rest.map Prod.fst).Nodup := (List.nodup_cons.mp hnd).2
      rw [constructLoop, extractSpec_wf k e hwfe]
      cases hlk : lookupA argCopy k with
      | some v =>
          cases hinst : isinstance v (specType e) with
          | true =>
              simp only [hinst, if_true]
              rw [ih (eraseA argCopy k) (acc ++ [(k, v)])
                (fun kv hm => hwf kv (List.mem_cons_of_mem _ hm))
                (fun kv hm => hnf kv (List.mem_cons_of_mem _ hm))
                hndr
                (fun kv hm hde => by
                  have hne : kv.1 ≠ k := by
                    intro he
                    exact hknr (he ▸ List.mem_map_of_mem Prod.fst hm)
                  rw [lookupA_eraseA_ne argCopy k kv.1 hne]
                  exact hreq kv (List.mem_cons_of_mem _ hm) hde)]
              constructor
              · rintro ⟨kv, hm, v2, hl, hf⟩
                have hne : kv.1 ≠ k := by
                  intro he
                  exact hknr (he ▸ List.mem_map_of_mem Prod.fst hm)
                rw [lookupA_eraseA_ne argCopy k kv.1 hne] at hl
                exact ⟨kv, List.mem_cons_of_mem _ hm, v2, hl, hf⟩
              · rintro ⟨kv, hm, v2, hl, hf⟩
                rcases List.mem_cons.mp hm with he | hm2
                · exfalso
                  subst he
                  have hl2 : lookupA argCopy k = some v2 := hl
                  rw [hlk] at hl2
                  have hv2 : v = v2 := Option.some.inj hl2
                  rw [← hv2] at hf
                  have hf2 : isinstance v (specType e) = false := hf
                  rw [hinst] at hf2
                  exact Bool.noConfusion hf2
                · have hne : kv.1 ≠ k := by
                    intro he
                    exact hknr (he ▸ List.mem_map_of_mem Prod.fst hm2)
                  rw [← lookupA_eraseA_ne argCopy k kv.1 hne] at hl
                  exact ⟨kv, hm2, v2, hl, hf⟩
          | false =>
              simp only [hinst, Bool.false_eq_true, if_false]
              constructor
              · intro _
                exact ⟨(k, e), hmem, v, hlk, hinst⟩
              · intro _
                exact ⟨k, rfl⟩
      | none =>
          cases hdef : entryDefault e with
          | some d =>
              have hdne : d ≠ PyVal.vNone := by
                intro he
                exact hnf (k, e) hmem (by rw [hdef, he])
              have hinstd : isinstance d (specType e) = true :=
                entryWF_default_isinstance e d hwfe hdef
              simp only [Option.getD_some]
              rw [if_pos hdne]
              simp only [hinstd, if_true]
              rw [ih argCopy (acc ++ [(k, d)])
                (fun kv hm => hwf kv (List.mem_cons_of_mem _ hm))
                (fun kv hm => hnf kv (List.mem_cons_of_mem _ hm))
                hndr
                (fun kv hm hde => hreq kv (List.mem_cons_of_mem _ hm) hde)]
              constructor
              · rintro ⟨kv, hm, v2, hl, hf⟩
                exact ⟨kv, List.mem_cons_of_mem _ hm, v2, hl, hf⟩
              · rintro ⟨kv, hm, v2, hl, hf⟩
                rcases List.mem_cons.mp hm with he | hm2
                · exfalso
                  subst he
                  have hl2 : lookupA argCopy k = some v2 := hl
                  rw [hlk] at hl2
                  exact Option.noConfusion hl2
                · exact ⟨kv, hm2, v2, hl, hf⟩
          | none =>
              exact absurd hlk (hreq (k, e) hmem hdef)

/-- C4: amended type-mismatch characterization.  For a schema whose
parameter declarations are well-formed, with distinct parameter names
and no declared default equal to Python None, and an argument map that
supplies every non-defaulted parameter, construction fails with the
type-mismatch TypeError of Event.py line 160 iff some supplied value for
a declared parameter is not an instance of that parameter's declared
type.  Since a well-formed declared default is always an instance of the
declared type, only caller-supplied values can mismatch.  (Amended from
the claim: a missing-argument failure on an earlier parameter in schema
order preempts the type check of a later parameter's mismatched supplied
value, so the unrestricted iff of the claim is false.) -/
theorem construct_mismatch_iff (sc : Schema) (args : List (String × PyVal))
    (hwf : ∀ kv ∈ sc.params, entryWF kv.2 = true)
    (hnf : ∀ kv ∈ sc.params, entryDefault kv.2 ≠ some PyVal.vNone)
    (hnd : (sc.params.map Prod.fst).Nodup)
    (hreq : ∀ kv ∈ sc.params, entryDefault kv.2 = none → lookupA args kv.1 ≠ none) :
    (∃ k, construct sc args = Except.error (EvtError.typeMismatch k)) ↔
      ∃ kv ∈ sc.params, ∃ v, lookupA args kv.1 = some v ∧
        isinstance v (specType kv.2) = false := by
  have h := constructLoop_mismatch_iff sc.params args [] hwf hnf hnd hreq
  rw [← h]
  constructor
  · rintro ⟨k, hk⟩
    exact ⟨k, (construct_error_iff sc args (EvtError.typeMismatch k)).mp hk⟩
  · rintro ⟨k, hk⟩
    exact ⟨k, (construct_error_iff sc args (EvtError.typeMismatch k)).mpr hk⟩

/-- C4 witness: supplying the string bad for the declared int parameter
p1 fails with a type-mismatch error. -/
theorem construct_mismatch_iff_witness :
    ∃ k, construct c4wSchema c4wArgs = Except.error (EvtError.typeMismatch k) :=
  (construct_mismatch_iff c4wSchema c4wArgs (by decide) (by decide) (by decide)
    (by decide)).mpr (by decide)

/-- C4 counterexample: the claim as stated fails.  The schema declares
the required int parameters a and b, and the argument map supplies only
b with the string s: the supplied value for b has a runtime type that
does not match the declared type, so by the claim construction must fail
with a type-mismatch error, yet the parameter loop raises the
missing-argument RuntimeError for the earlier parameter a at Event.py
line 155 before b's value is ever type-checked. -/
theorem construct_c4_counterexample :
    construct c4exSchema c4exArgs = Except.error (EvtError.missingArg ("a")) ∧
    (∃ kv ∈ c4exSchema.params, ∃ v, lookupA c4exArgs kv.1 = some v ∧
      isinstance v (specType kv.2) = false) := by
  refine ⟨?_, by decide⟩
  rfl

/-- C5: the comparison operators of Event.py lines 99-112 are determined
by priority alone: for any two instances, of possibly different event
types and payloads, less-than holds iff the priorities compare so, and
equality holds iff the priorities are equal; replacing the payloads and
type identities changes no comparison; the induced order is total
(totality, transitivity, and antisymmetry up to priority equality, with
the lt, eq, gt trichotomy). -/
theorem event_priority_total_order (a b c : EventInst)
    (p q : List (String × PyVal)) (t u : String) :
    (ev_lt a b = true ↔ a.priority < b.priority) ∧
    (ev_eq a b = true ↔ a.priority = b.priority) ∧
    (ev_gt a b = true ↔ b.priority < a.priority) ∧
    (ev_le a b = true ↔ a.priority ≤ b.priority) ∧
    (ev_ge a b = true ↔ b.priority ≤ a.priority) ∧
    ev_lt { typeId := t, priority := a.priority, payload := p }
      { typeId := u, priority := b.priority, payload := q } = ev_lt a b ∧
    ev_eq { typeId := t, priority := a.priority, payload := p }
      { typeId := u, priority := b.priority, payload := q } = ev_eq a b ∧
    (ev_le a b = true ∨ ev_le b a = true) ∧
    (ev_le a b = true → ev_le b c = true → ev_le a c = true) ∧
    (ev_le a b = true → ev_le b a = true → ev_eq a b = true) ∧
    (ev_lt a b = true ∨ ev_eq a b = true ∨ ev_gt a b = true) := by
  refine ⟨?_, ?_, ?_, ?_, ?_, ?_, ?_, ?_, ?_, ?_, ?_⟩ <;>
    simp [ev_lt, ev_eq, ev_gt, ev_le, ev_ge] <;> omega

/-- C5 witness: instantiation at three concrete instances of different
types, priorities and payloads, exercising the transitivity conjunct. -/
theorem event_priority_total_order_witness : ev_le evA evC = true :=
  (event_priority_total_order evA evB evC [] [] ("") ("")).2.2.2.2.2.2.2.2.1
    (by decide) (by decide)

/- C6 infrastructure: a schema containing a malformed entry never
constructs. -/

theorem constructLoop_ne_ok_of_malformed (params : List (String × SpecEntry)) :
    ∀ (argCopy acc : List (String × PyVal)) (kvbad : String × SpecEntry),
    kvbad ∈ params → entryWF kvbad.2 = false →
    ∀ out, constructLoop params argCopy acc ≠ Except.ok out := by
  induction params with
  | nil =>
      intro argCopy acc kvbad hm _ out
      exact absurd hm (by simp)
  | cons hd rest ih =>
      intro argCopy acc kvbad hm hbad out
      obtain ⟨k, e⟩ := hd
      rcases List.mem_cons.mp hm with he | hm2
      · subst he
        rcases extractSpec_not_wf k e hbad with ⟨er, her, _⟩
        rw [constructLoop, her]
        simp
      · cases hex : extractSpec k e with
        | error er =>
            rw [constructLoop, hex]
            simp
        | ok td =>
            rw [constructLoop, hex]
            cases hlk : lookupA argCopy k with
            | some v =>
                cases hinst : isinstance v td.1 with
                | true =>
                    simp only [hinst, if_true]
                    exact ih (eraseA argCopy k) (acc ++ [(k, v)]) kvbad hm2 hbad out
                | false =>
                    simp only [hinst, Bool.false_eq_true, if_false]
                    simp
            | none =>
                by_cases hvn : td.2 = PyVal.vNone
                · simp [hvn]
                · cases hinst : isinstance td.2 td.1 with
                  | true =>
                      simp only [ne_eq, hvn, not_false_eq_true, if_true, hinst]
                      exact ih argCopy (acc ++ [(k, td.2)]) kvbad hm2 hbad out
                  | false =>
                      simp [hvn, hinst]

/-- C6: amended validation timing.  Event-type declaration does not
validate the parameter specification: EventType stores the keyword
specification unseen, so declaring a type whose specification contains a
malformed entry succeeds (with the default or the supplied integer
priority).  The validation happens at instance-construction time: for a
schema containing a malformed entry no construction ever succeeds, and
when the malformed entry is the first declared parameter every
construction fails with one of the schema-declaration TypeErrors of
Event.py lines 141, 145 and 147.  (Amended from the claim, which asserts
eager validation at declaration time: EventType lines 170-201 never
inspect the entries.) -/
theorem eventType_lazy_validation :
    (∀ (nm : String) (specs : List (String × SpecEntry)),
      EventType nm none specs = Except.ok { name := nm, priority := 10, params := specs }) ∧
    (∀ (nm : String) (n : Int) (specs : List (String × SpecEntry)),
      EventType nm (some (PyVal.vInt n)) specs =
        Except.ok { name := nm, priority := n, params := specs }) ∧
    (∀ (sc : Schema) (args : List (String × PyVal)),
      (∃ kv ∈ sc.params, entryWF kv.2 = false) →
      ∀ inst, construct sc args ≠ Except.ok inst) ∧
    (∀ (sc : Schema) (args : List (String × PyVal)) (k : String) (e : SpecEntry)
      (rest : List (String × SpecEntry)),
      sc.params = (k, e) :: rest → entryWF e = false →
      ∃ er, construct sc args = Except.error er ∧ isSchemaError er = true) := by
  refine ⟨fun nm specs => rfl, fun nm n specs => rfl, ?_, ?_⟩
  · rintro sc args ⟨kv, hm, hbad⟩ inst hok
    have hne := constructLoop_ne_ok_of_malformed sc.params args [] kv hm hbad
    unfold construct at hok
    cases hl : constructLoop sc.params args [] with
    | ok kvs => exact hne kvs hl
    | error er =>
        rw [hl] at hok
        exact Except.noConfusion hok
  · intro sc args k e rest hp hbad
    rcases extractSpec_not_wf k e hbad with ⟨er, her, hs⟩
    refine ⟨er, ?_, hs⟩
    unfold construct
    rw [hp, constructLoop, her]

/-- C6 witness: on the concrete schema whose single entry is the plain
value 5 the construction fails with a schema-declaration error. -/
theorem eventType_lazy_validation_witness :
    ∃ er, construct c6badSchema [] = Except.error er ∧ isSchemaError er = true :=
  eventType_lazy_validation.2.2.2 c6badSchema [] ("p")
    (SpecEntry.other (PyVal.vInt 5)) [] rfl rfl

/-- C6 counterexample: the claim as stated fails.  Declaring an event
type whose parameter specification maps p to the plain value 5 — neither
a type nor a (type, default) pair — succeeds and returns the schema:
no schema-declaration error is raised at declaration time; the error
only appears when an instance is constructed. -/
theorem eventType_c6_counterexample :
    EventType ("Bad") none c6badSpecs = Except.ok c6badSchema ∧
    construct c6badSchema [] = Except.error (EvtError.schemaDeclShape ("p")) :=
  ⟨rfl, rfl⟩

/-- C7: the code diverges from the claim on the unregistered path.
Subscribing a callable to an event type that is not registered on the
publisher raises the dict-lookup KeyError of Publisher.py line 116, not
the not-registered error the claim requires: the intended raise at lines
120-121 is unreachable because line 116 already indexed the dict.  The
publisher state is left unchanged. -/
theorem subscribe_unregistered_keyerror :
    subscribe c7empty ("T") c7cb = (c7empty, some (PubError.keyError ("T"))) ∧
    (subscribe c7empty ("T") c7cb).2 ≠ some (PubError.notRegistered ("T")) := by
  refine ⟨rfl, by decide⟩

/-- C8: the publish contract of Publisher.py lines 147-164.  Publishing
an event whose runtime type is not registered fails with the
not-registered error and performs no invocation.  Publishing a
registered event succeeds, never mutates the publisher, and invokes
exactly the subscribers of that type, in subscription order: each
subscriber recognized as an owning dispatcher internal-event sink
receives the raw event instance, every other subscriber receives the
event parameters expanded; with zero subscribers no callback is
invoked. -/
theorem publish_contract (s : PubState) (e : EventInst) :
    (lookupA s.subscribers e.typeId = none →
      publish s e = (s, some (PubError.notRegistered e.typeId), [])) ∧
    (∀ subs, lookupA s.subscribers e.typeId = some subs →
      (publish s e).1 = s ∧ (publish s e).2.1 = none ∧
      (publish s e).2.2 = subs.map (fun c =>
        (c, if recognizedSink c then CallForm.raw e else CallForm.expanded e.payload)) ∧
      ((publish s e).2.2).map Prod.fst = subs ∧
      (subs = [] → (publish s e).2.2 = [])) := by
  constructor
  · intro h
    simp [publish, h]
  · intro subs h
    refine ⟨by simp [publish, h], by simp [publish, h], by simp [publish, h], ?_, ?_⟩
    · simp [publish, h]
      have hcomp : (Prod.fst ∘ fun c : CallbackObj =>
          (c, if recognizedSink c = true then CallForm.raw e
              else CallForm.expanded e.payload)) = fun c => c := rfl
      rw [hcomp]
      simp
    · intro hs
      subst hs
      simp [publish, h]

/-- C8 witness: a registered type with an ordinary subscriber followed
by a recognized sink subscriber; publishing invokes both in order, the
first with the expanded payload and the second with the raw event. -/
theorem publish_contract_witness :
    (publish c8state c8event).2.2 =
      [(c8norm, CallForm.expanded c8event.payload), (c8sink, CallForm.raw c8event)] := by
  have h := (publish_contract c8state c8event).2 [c8norm, c8sink] (by decide)
  rw [h.2.2.1]
  rfl

/-- C9: the lifecycle scenario of the dispatcher model.  Starting a
fresh dispatcher, triggering exit, then joining produces exactly one
Running and exactly one Exiting internal event, in that order, with the
worker terminated before join returns. -/
theorem dispatcher_lifecycle_trace :
    (dJoin (dTriggerExit (dStart dispNew).1)).trace =
      [LifeEvt.runningEvt, LifeEvt.exitingEvt] ∧
    (dJoin (dTriggerExit (dStart dispNew).1)).status = DStatus.terminated ∧
    ((dJoin (dTriggerExit (dStart dispNew).1)).trace).count LifeEvt.runningEvt = 1 ∧
    ((dJoin (dTriggerExit (dStart dispNew).1)).trace).count LifeEvt.exitingEvt = 1 ∧
    (dStart dispNew).2 = none := by
  refine ⟨rfl, rfl, ?_, ?_, rfl⟩ <;> rfl

/-- C10: every failing Publisher operation is atomic.  For any publisher
state and any arguments, whenever registerEvent, unregisterEvent,
subscribe, unsubscribe or publish reports an error, the state after the
call equals the state before it: the registered event types and every
subscriber list are unchanged. -/
theorem publisher_atomic_on_error (s : PubState) (t : String) (c : CallbackObj)
    (e : EventInst) :
    ((registerEvent s t).2 ≠ none → (registerEvent s t).1 = s) ∧
    ((unregisterEvent s t).2 ≠ none → (unregisterEvent s t).1 = s) ∧
    ((subscribe s t c).2 ≠ none → (subscribe s t c).1 = s) ∧
    ((unsubscribe s t c).2 ≠ none → (unsubscribe s t c).1 = s) ∧
    ((publish s e).2.1 ≠ none → (publish s e).1 = s) := by
  refine ⟨?_, ?_, ?_, ?_, ?_⟩
  · intro h
    cases hl : lookupA s.subscribers t with
    | some v => simp [registerEvent, hl]
    | none => exact absurd (by simp [registerEvent, hl]) h
  · intro h
    cases hl : lookupA s.subscribers t with
    | some v => exact absurd (by simp [unregisterEvent, hl]) h
    | none => simp [unregisterEvent, hl]
  · intro h
    by_cases hc : c.callableB = false
    · simp [subscribe, hc]
    · cases hl : lookupA s.subscribers t with
      | none => simp [subscribe, hc, hl]
      | some subs =>
          by_cases hm : c ∈ subs
          · simp [subscribe, hc, hl, hm]
          · exact absurd (by simp [subscribe, hc, hl, hm]) h
  · intro h
    by_cases hc : c.callableB = false
    · simp [unsubscribe, hc]
    · cases hl : lookupA s.subscribers t with
      | none => simp [unsubscribe, hc, hl]
      | some subs =>
          by_cases hm : c ∈ subs
          · exact absurd (by simp [unsubscribe, hc, hl, hm]) h
          · simp [unsubscribe, hc, hl, hm]
  · intro h
    cases hl : lookupA s.subscribers e.typeId with
    | some subs => exact absurd (by simp [publish, hl]) h
    | none => simp [publish, hl]

/-- C10 witness: registering the already-registered type T fails and
leaves the publisher state unchanged. -/
theorem publisher_atomic_on_error_witness :
    (registerEvent c10state ("T")).1 = c10state :=
  (publisher_atomic_on_error c10state ("T") c10cb c10event).1 (by decide)

end Evtdis
